import Mathlib

/-!
Shallow embedding of the control-plane code of AdGuardHome (src/control.go):
the stats top-N sorting (handleStatsTop / sortByValue), the upstream resolver
probe (checkDNS), the TLS certificate/key validator (validateCertificates,
parsePrivateKey) and the filter-list Add/Remove handlers
(handleFilteringAddURL / handleFilteringRemoveURL), together with proofs of
the specification claims about them.
-/

namespace AdGuard

/-! ## Stats aggregator: sortByValue and the top-N truncation

Go source, src/control.go lines 161-206 (handleStatsTop) and 301-319
(sortByValue).  A Go map `map[string]int` is modelled by the sequence of
key/value pairs in the order the `for k, v := range m` loop yields them:
Go randomizes that iteration order per run, so the sequence, not the
underlying mapping, is the input of the model.  `sort.Slice` with the
comparison `ss[l].v > ss[r].v` promises only some permutation of the slice
ordered by count descending and is explicitly not stable; that contract is
the predicate sortSliceOutcome below.  The executable model sortPairs is
one permitted outcome (the insertion sort that `sort.Slice` itself runs on
short slices); no theorem relies on how sortPairs orders equal counts. -/

/-- A key/value pair of the counter mapping, Go struct `kv` inside sortByValue. -/
structure kv where
  k : String
  v : Int
deriving DecidableEq, Repr

/-- Descending order on counter values: `a` may come before `b`. -/
def kvGE (a b : kv) : Prop := b.v ≤ a.v

instance : DecidableRel kvGE := fun a b => inferInstanceAs (Decidable (b.v ≤ a.v))

instance : IsTotal kv kvGE := ⟨fun a b => le_total b.v a.v⟩

instance : IsTrans kv kvGE := ⟨fun _ _ _ h1 h2 => le_trans h2 h1⟩

/-- Descending order on the counter values themselves. -/
def intGE (x y : Int) : Prop := y ≤ x

instance : DecidableRel intGE := fun x y => inferInstanceAs (Decidable (y ≤ x))

instance : IsAntisymm Int intGE := ⟨fun _ _ h1 h2 => le_antisymm h2 h1⟩

/-- The documented contract of the sort.Slice call of sortByValue
(src/control.go:310-312): the result is some permutation of the pair slice
that is ordered by count descending.  sort.Slice guarantees nothing more:
it is not stable, so the order of entries with equal counts is not
determined by this contract. -/
def sortSliceOutcome (m out : List kv) : Prop :=
  List.Perm out m ∧ List.Pairwise kvGE out

/-- The sorting pass of sortByValue: one permitted outcome of the
sort.Slice contract, used to evaluate the model on concrete inputs. -/
def sortPairs (m : List kv) : List kv := List.insertionSort kvGE m

/-- Go sortByValue (src/control.go:301): returns the keys sorted by count descending. -/
def sortByValue (m : List kv) : List String := (sortPairs m).map kv.k

/-- The truncation done by the gen closure of handleStatsTop
(src/control.go:172-176): no more than 50 entries. -/
def statsTopKeys (m : List kv) : List String :=
  let sorted := sortByValue m
  if sorted.length > 50 then sorted.take 50 else sorted

/-- Go map lookup `top[key]` as used by handleStatsTop when printing counts;
a missing key yields the zero value. -/
def mapGet (m : List kv) (key : String) : Int :=
  match m.find? (fun e => e.k = key) with
  | some e => e.v
  | none => 0

/-! ## Resolver prober: checkDNS reply classification

Go source, src/control.go lines 410-438.  The model covers the
classification of a reply whose exchange completed; transport construction
and the network exchange itself are the probe preconditions. -/

/-- A resource record of the reply, either an A record carrying an IPv4
address or a record of any other type (the Go type switch
`reply.Answer[0].(*dns.A)`). -/
inductive RR where
  | a (ip : List Nat)
  | other (rtype : String)
deriving DecidableEq, Repr

/-- The fixed known-good address 8.8.8.8 for the test hostname
google-public-dns-a.google.com. -/
def testAnswerIP : List Nat := [8, 8, 8, 8]

/-- checkDNS after a completed exchange (src/control.go:427-437): require
exactly one answer; an A answer must additionally carry 8.8.8.8. -/
def checkDNSReply (answer : List RR) : Except String Unit :=
  if answer.length ≠ 1 then
    .error "DNS server returned wrong answer"
  else
    match answer with
    | RR.a ip :: _ =>
        if ip ≠ testAnswerIP then
          .error "DNS server returned wrong answer ip"
        else
          .ok ()
    | _ => .ok ()

/-- Successful classification of an Except result. -/
def isOkE : Except String α → Bool
  | .ok _ => true
  | .error _ => false

/-! ## TLS certificate and private-key validation

Go source, src/control.go lines 1081-1239 (validateCertificates and
parsePrivateKey).  The standard-library crypto primitives the code calls
(pem.Decode, x509.ParseCertificate, Certificate.Verify, tls.X509KeyPair,
x509.ParsePKCS1PrivateKey, x509.ParsePKCS8PrivateKey,
x509.ParseECPrivateKey) are external collaborators and appear as an
environment of oracle functions; validateCertificates itself is translated
statement by statement.  The repeated pem.Decode loop over a text is
represented by the full block sequence the loop yields. -/

/-- A decoded PEM block: its type line and its DER bytes (pem.Block). -/
structure PemBlock where
  type : String
  bytes : List Nat
deriving DecidableEq, Repr

/-- The fields of a parsed x509.Certificate that validateCertificates reads. -/
structure Cert where
  subjectStr : String
  issuerStr : String
  notBefore : Int
  notAfter : Int
  dnsNames : List String
deriving DecidableEq, Repr

/-- The inner key type found inside a PKCS#8 wrapping (the Go type switch in
parsePrivateKey). -/
inductive PKCS8Inner where
  | rsa
  | ecdsa
  | other
deriving DecidableEq, Repr

/-- The external crypto collaborators of validateCertificates. -/
structure CryptoEnv where
  /-- All PEM blocks the repeated pem.Decode loop yields for a text. -/
  pemDecodeAll : String → List PemBlock
  /-- x509.ParseCertificate on a block's DER bytes. -/
  parseCertificate : List Nat → Except String Cert
  /-- mainCert.Verify with the intermediate pool and the DNSName option. -/
  verify : Cert → List Cert → String → Except String Unit
  /-- tls.X509KeyPair on the raw chain and key texts. -/
  x509KeyPair : String → String → Except String Unit
  /-- x509.ParsePKCS1PrivateKey (success or failure). -/
  parsePKCS1 : List Nat → Option Unit
  /-- x509.ParsePKCS8PrivateKey, classified by the inner key type. -/
  parsePKCS8 : List Nat → Option PKCS8Inner
  /-- x509.ParseECPrivateKey (success or failure). -/
  parseEC : List Nat → Option Unit

/-- Modelled from the spec: the tlsConfig struct (settings plus status
report) whose Go definition lives outside src/; its fields are those the
spec's CertificateBundle describes and validateCertificates reads and
writes: the input chain/key texts and server name, and the derived
ValidCert/ValidChain/leaf metadata/ValidKey/KeyType/warning/usable report. -/
structure tlsConfig where
  certificateChain : String
  privateKey : String
  serverName : String
  validCert : Bool := false
  validChain : Bool := false
  subject : String := ""
  issuer : String := ""
  notBefore : Int := 0
  notAfter : Int := 0
  dnsNames : List String := []
  validKey : Bool := false
  keyType : String := ""
  warningValidation : String := ""
  usable : Bool := false
deriving DecidableEq, Repr

/-- The assignment data.tlsConfigStatus = tlsConfigStatus\x7b\x7d
(src/control.go:1085): reset every derived status field, keep the settings. -/
def clearStatus (d : tlsConfig) : tlsConfig :=
  { certificateChain := d.certificateChain
    privateKey := d.privateKey
    serverName := d.serverName }

/-- The CERTIFICATE-typed PEM blocks collected by the decode loop
(src/control.go:1095-1107); blocks of other types are skipped. -/
def certBlocks (env : CryptoEnv) (chain : String) : List PemBlock :=
  (env.pemDecodeAll chain).filter (fun b => b.type = "CERTIFICATE")

/-- The parse loop over the collected certificate blocks
(src/control.go:1111-1118): parse each in order, the first failure aborts. -/
def parseAllCerts (env : CryptoEnv) : List PemBlock → Except String (List Cert)
  | [] => .ok []
  | b :: bs =>
    match env.parseCertificate b.bytes with
    | .error e => .error e
    | .ok c =>
      match parseAllCerts env bs with
      | .error e => .error e
      | .ok cs => .ok (c :: cs)

/-- The trust-store verification of the leaf against the remaining
certificates as intermediates (src/control.go:1144-1152): a failure is
downgraded to a warning, success sets ValidChain. -/
def chainVerify (env : CryptoEnv) (d1 : tlsConfig) (mainCert : Cert) (rest : List Cert) :
    tlsConfig :=
  match env.verify mainCert rest d1.serverName with
  | .error e =>
      { d1 with warningValidation := "Your certificate does not verify: " ++ e }
  | .ok _ => { d1 with validChain := true }

/-- The status update from the leaf certificate (src/control.go:1156-1163). -/
def setLeafMeta (d : tlsConfig) (mainCert : Cert) : tlsConfig :=
  { d with
      subject := mainCert.subjectStr
      issuer := mainCert.issuerStr
      notAfter := mainCert.notAfter
      notBefore := mainCert.notBefore
      dnsNames := mainCert.dnsNames }

/-- The certificate-chain branch of validateCertificates
(src/control.go:1088-1164).  An .error result is an early return of the
function with that value.  The first parsed certificate is the leaf,
ValidCert is set as soon as all blocks parsed, then verification runs and
then the leaf metadata is recorded. -/
def chainStep (env : CryptoEnv) (data : tlsConfig) : Except tlsConfig tlsConfig :=
  if data.certificateChain = "" then .ok data
  else
    match parseAllCerts env (certBlocks env data.certificateChain) with
    | .error e =>
        .error { data with warningValidation := "Failed to parse certificate: " ++ e }
    | .ok [] =>
        .error { data with warningValidation := "You have specified an empty certificate" }
    | .ok (mainCert :: rest) =>
        .ok (setLeafMeta (chainVerify env { data with validCert := true } mainCert rest) mainCert)

/-- Go strings.HasSuffix, expressed on the character sequences. -/
def strEndsWith (s post : String) : Bool := List.isSuffixOf post.data s.data

/-- The private-key PEM block filter (src/control.go:1180): type is
PRIVATE KEY or ends in a space plus PRIVATE KEY. -/
def isKeyBlock (b : PemBlock) : Bool :=
  b.type = "PRIVATE KEY" || strEndsWith b.type " PRIVATE KEY"

/-- parsePrivateKey (src/control.go:1220-1239): try PKCS#1 RSA, then PKCS#8
with its inner type switch, then SEC1 EC; returns the reported key type. -/
def parsePrivateKey (env : CryptoEnv) (der : List Nat) : Except String String :=
  match env.parsePKCS1 der with
  | some _ => .ok "RSA"
  | none =>
    match env.parsePKCS8 der with
    | some PKCS8Inner.rsa => .ok "RSA"
    | some PKCS8Inner.ecdsa => .ok "ECDSA"
    | some PKCS8Inner.other =>
        .error "tls: found unknown private key type in PKCS#8 wrapping"
    | none =>
      match env.parseEC der with
      | some _ => .ok "ECDSA"
      | none => .error "tls: failed to parse private key"

/-- Written from the spec sentence for the key parser: an ordered,
short-circuiting sequence of the three independent parse attempts.
PKCS#1 success reports RSA; otherwise a PKCS#8 success reports its inner
type, any inner type other than RSA or ECDSA being an error; otherwise a
SEC1 EC success reports ECDSA; exhausting all three is the failure
warning. -/
def parsePrivateKeySpec (env : CryptoEnv) (der : List Nat) : Except String String :=
  if (env.parsePKCS1 der).isSome then .ok "RSA"
  else if (env.parsePKCS8 der).isSome then
    match env.parsePKCS8 der with
    | some PKCS8Inner.rsa => .ok "RSA"
    | some PKCS8Inner.ecdsa => .ok "ECDSA"
    | _ => .error "tls: found unknown private key type in PKCS#8 wrapping"
  else if (env.parseEC der).isSome then .ok "ECDSA"
  else .error "tls: failed to parse private key"

/-- The private-key branch of validateCertificates
(src/control.go:1167-1202): keep the first key-typed PEM block, parse it. -/
def keyStep (env : CryptoEnv) (data : tlsConfig) : Except tlsConfig tlsConfig :=
  if data.privateKey = "" then .ok data
  else
    match (env.pemDecodeAll data.privateKey).find? isKeyBlock with
    | none => .error { data with warningValidation := "No valid keys were found" }
    | some key =>
      match parsePrivateKey env key.bytes with
      | .error e =>
          .error { data with warningValidation := "Failed to parse private key: " ++ e }
      | .ok kt => .ok { data with validKey := true, keyType := kt }

/-- The joint validation of validateCertificates (src/control.go:1205-1212):
when both texts are present, build the key pair from the raw texts. -/
def pairStep (env : CryptoEnv) (data : tlsConfig) : tlsConfig :=
  if data.privateKey = "" then data
  else if data.certificateChain = "" then data
  else
    match env.x509KeyPair data.certificateChain data.privateKey with
    | .error e =>
        { data with warningValidation := "Invalid certificate or key: " ++ e }
    | .ok _ => { data with usable := true }

/-- The part of validateCertificates after the chain branch: the key branch
followed by the joint key-pair check (src/control.go:1166-1214). -/
def validateTail (env : CryptoEnv) (d : tlsConfig) : tlsConfig :=
  match keyStep env d with
  | .error d2 => d2
  | .ok d2 => pairStep env d2

/-- validateCertificates (src/control.go:1081-1215): clear the status, run
the chain branch, the key branch and the pair check, each early return
producing the function result. -/
def validateCertificates (env : CryptoEnv) (data0 : tlsConfig) : tlsConfig :=
  match chainStep env (clearStatus data0) with
  | .error d => d
  | .ok d => validateTail env d

/-! ## Filter list manager: the Add and Remove handlers

Go source, src/control.go lines 523-649.  The collection config.Filters is
the explicit state; the external collaborators (govalidator.IsRequestURL,
assignUniqueFilterID, the filter content fetch f.update, the content save
f.save, os.Remove, writeAllConfigs, reconfigureDNSServer) form an
environment.  The handler bodies are translated branch by branch; the
request body is taken already decoded (a decode failure is an immediate
400 before any of the modelled logic runs). -/

/-- Modelled from the spec: the filter struct whose Go definition lives
outside src/; its fields are the FilterList identity, flag and derived
rule count the spec describes and the handlers read and write. -/
structure filter where
  ID : Nat
  URL : String
  Enabled : Bool
  RulesCount : Nat
deriving DecidableEq, Repr

/-- Outcome of the os.Remove call on a filter content file. -/
inductive FsResult where
  | ok
  | notExist
  | err (msg : String)
deriving DecidableEq, Repr

/-- The external collaborators of the filtering handlers. -/
structure FilterEnv where
  /-- govalidator.IsRequestURL. -/
  isRequestURL : String → Bool
  /-- assignUniqueFilterID. -/
  nextID : Nat
  /-- f.update(true): the content fetch, returning the ok flag and the rule
  count it stores into the filter, or a fetch error. -/
  update : filter → Except String (Bool × Nat)
  /-- f.save(): persisting the filter content file. -/
  save : filter → Except String Unit
  /-- os.Remove on a filter content file. -/
  removeFile : filter → FsResult
  /-- writeAllConfigs. -/
  writeAllConfigs : Except String Unit
  /-- reconfigureDNSServer. -/
  reconfigureDNS : Except String Unit

/-- An HTTP handler outcome: the first status line written, OK or an error
with its code. -/
inductive HResp where
  | ok (msg : String)
  | err (code : Nat) (msg : String)
deriving DecidableEq, Repr

/-- Successful classification of a handler outcome. -/
def respIsOk : HResp → Bool
  | HResp.ok _ => true
  | HResp.err _ _ => false

/-- The tail of handleFilteringAddURL after the content fetch
(src/control.go:563-608), on the fetched filter f2 whose RulesCount the
fetch has set: check the rule count and validity flag, save the content,
append to the collection, then persist configuration and reload DNS.
After the reconfigure error the Go code falls through and also prints the
OK line; the response records the error status already written. -/
def addTail (env : FilterEnv) (ok : Bool) (f2 : filter) (filters : List filter) :
    HResp × List filter :=
  if f2.RulesCount = 0 then
    (HResp.err 400 ("Filter at the url " ++ f2.URL ++ " has no rules (maybe it points to blank page?)"), filters)
  else if ¬ ok then
    (HResp.err 400 ("Filter at the url " ++ f2.URL ++ " is invalid (maybe it points to blank page?)"), filters)
  else
    match env.save f2 with
    | .error e =>
        (HResp.err 400 ("Failed to save filter due to " ++ e), filters)
    | .ok _ =>
      match env.writeAllConfigs with
      | .error e =>
          (HResp.err 500 ("Couldn't write config file: " ++ e), filters ++ [f2])
      | .ok _ =>
        match env.reconfigureDNS with
        | .error e =>
            (HResp.err 500 ("Couldn't reconfigure the DNS server: " ++ e), filters ++ [f2])
        | .ok _ =>
            (HResp.ok ("OK " ++ toString f2.RulesCount ++ " rules"), filters ++ [f2])

/-- handleFilteringAddURL (src/control.go:523-609) on a decoded request
filter f and the current config.Filters: validate the URL, reject
duplicates, assign the fresh ID, set Enabled, fetch, then run the tail. -/
def handleFilteringAddURL (env : FilterEnv) (f : filter) (filters : List filter) :
    HResp × List filter :=
  if f.URL.length = 0 then
    (HResp.err 400 "URL parameter was not specified", filters)
  else if ¬ env.isRequestURL f.URL then
    (HResp.err 400 "URL parameter is not valid request URL", filters)
  else if filters.any (fun g => g.URL = f.URL) then
    (HResp.err 400 ("Filter URL already added -- " ++ f.URL), filters)
  else
    match env.update { f with ID := env.nextID, Enabled := true } with
    | .error e =>
        (HResp.err 400 ("Couldn't fetch filter from url " ++ f.URL ++ ": " ++ e), filters)
    | .ok (ok, rc) =>
        addTail env ok { f with ID := env.nextID, Enabled := true, RulesCount := rc } filters

/-- The removal loop of handleFilteringRemoveURL (src/control.go:632-648)
followed by httpUpdateConfigReloadDNSReturnOK.  acc is the newFilters slice
being built; because newFilters reslices config.Filters in place, an abort
on a filesystem error leaves config.Filters as the elements already kept
followed by the not-yet-overwritten tail of the original backing array. -/
def removeLoop (env : FilterEnv) (url : String) (orig : List filter) :
    List filter → List filter → HResp × List filter
  | acc, [] =>
    match env.writeAllConfigs with
    | .error e => (HResp.err 500 ("Couldn't write config file: " ++ e), acc)
    | .ok _ =>
      match env.reconfigureDNS with
      | .error e => (HResp.err 500 ("Couldn't write config file: " ++ e), acc)
      | .ok _ => (HResp.ok "OK", acc)
  | acc, g :: rest =>
    if g.URL ≠ url then removeLoop env url orig (acc ++ [g]) rest
    else
      match env.removeFile g with
      | FsResult.err e =>
          (HResp.err 500 ("Couldn't remove the filter file: " ++ e),
           acc ++ orig.drop acc.length)
      | _ => removeLoop env url orig acc rest

/-- handleFilteringRemoveURL (src/control.go:611-649) on the decoded body
parameters and the current config.Filters. -/
def handleFilteringRemoveURL (env : FilterEnv) (params : List (String × String))
    (filters : List filter) : HResp × List filter :=
  match params.lookup "url" with
  | none => (HResp.err 400 "URL parameter was not specified", filters)
  | some url =>
    if ¬ env.isRequestURL url then
      (HResp.err 400 "URL parameter is not valid request URL", filters)
    else
      removeLoop env url filters [] filters

/-! ## Concrete instances used to evaluate the model -/

/-- A leaf certificate as returned by the parse oracle. -/
def certLeaf : Cert :=
  { subjectStr := "CN=leaf"
    issuerStr := "CN=issuer"
    notBefore := 5
    notAfter := 9
    dnsNames := ["leaf.example"] }

/-- A CERTIFICATE block whose bytes parse. -/
def blockGood : PemBlock := { type := "CERTIFICATE", bytes := [0] }

/-- A CERTIFICATE block whose bytes do not parse. -/
def blockBad : PemBlock := { type := "CERTIFICATE", bytes := [1] }

/-- An RSA private-key block. -/
def blockKey : PemBlock := { type := "RSA PRIVATE KEY", bytes := [2] }

/-- A crypto environment: the chain text C decodes to one good certificate,
the chain text B to a good one followed by a bad one, the key text K to an
RSA key; the trust-store verification fails (a self-signed setup) while the
key pair of C and K matches. -/
def tlsEnvEx : CryptoEnv :=
  { pemDecodeAll := fun s =>
      if s = "C" then [blockGood]
      else if s = "B" then [blockGood, blockBad]
      else if s = "K" then [blockKey]
      else []
    parseCertificate := fun b =>
      if b = [0] then .ok certLeaf else .error "asn1 syntax error"
    verify := fun _ _ _ => .error "certificate signed by unknown authority"
    x509KeyPair := fun c k => if c = "C" && k = "K" then .ok () else .error "mismatch"
    parsePKCS1 := fun b => if b = [2] then some () else none
    parsePKCS8 := fun _ => none
    parseEC := fun _ => none }

/-- A chain-and-key input whose chain parses and whose key matches. -/
def cfgHappy : tlsConfig :=
  { certificateChain := "C", privateKey := "K", serverName := "" }

/-- An input whose chain holds a good certificate block followed by one that
fails to parse, beside a valid private key. -/
def cfgBadTail : tlsConfig :=
  { certificateChain := "B", privateKey := "K", serverName := "" }

/-- A filtering environment in which every external call succeeds: every URL
is well-formed, the fetch yields 120 rules, saving and config writes work. -/
def fEnvOk : FilterEnv :=
  { isRequestURL := fun _ => true
    nextID := 7
    update := fun _ => .ok (true, 120)
    save := fun _ => .ok ()
    removeFile := fun _ => FsResult.ok
    writeAllConfigs := .ok ()
    reconfigureDNS := .ok () }

/-- The same environment except that writing the configuration file fails. -/
def fEnvNoWrite : FilterEnv := { fEnvOk with writeAllConfigs := .error "disk full" }

/-- The same environment except that the content fetch fails. -/
def fEnvNoFetch : FilterEnv := { fEnvOk with update := fun _ => .error "timeout" }

/-- A filter as decoded from an Add request body. -/
def fNew : filter := { ID := 0, URL := "https://example.test/list.txt", Enabled := false, RulesCount := 0 }

/-- A stored filter with the same URL as fNew. -/
def fOld : filter := { ID := 1, URL := "https://example.test/list.txt", Enabled := true, RulesCount := 5 }

/-- A stored filter with an unrelated URL. -/
def fOther : filter := { ID := 2, URL := "https://other.example/x.txt", Enabled := true, RulesCount := 9 }

/-- A small counter mapping with distinct keys. -/
def statsEx : List kv := [{ k := "a", v := 3 }, { k := "b", v := 7 }]

/-! ## Theorems: stats aggregator -/

theorem statsTopKeys_eq_take (m : List kv) : statsTopKeys m = (sortByValue m).take 50 := by
  by_cases h : (sortByValue m).length > 50
  · simp [statsTopKeys, h]
  · simp only [statsTopKeys, h, if_false]
    exact (List.take_of_length_le (by omega)).symm

theorem find?_key_eq (m : List kv) (h : (m.map kv.k).Nodup) (e : kv) (he : e ∈ m) :
    m.find? (fun x => x.k = e.k) = some e := by
  induction m with
  | nil => cases he
  | cons a t ih =>
    rw [List.map_cons, List.nodup_cons] at h
    rcases List.mem_cons.mp he with rfl | ht
    · exact List.find?_cons_of_pos t (by simp)
    · have hne : a.k ≠ e.k := fun heq => h.1 (heq ▸ List.mem_map_of_mem kv.k ht)
      rw [List.find?_cons_of_neg t (by simp [hne])]
      exact ih h.2 ht

theorem mapGet_mem (m : List kv) (h : (m.map kv.k).Nodup) (e : kv) (he : e ∈ m) :
    mapGet m e.k = e.v := by
  unfold mapGet
  rw [find?_key_eq m h e he]

/-- C5: for every counter mapping (with the distinct keys a Go map has, in
any iteration order), the top-N output of handleStatsTop has at most 50
entries and the count of each listed key is at least the count of the
next. -/
theorem claim5 (m : List kv) (h : (m.map kv.k).Nodup) :
    (statsTopKeys m).length ≤ 50 ∧
      List.Sorted (fun x y => mapGet m y ≤ mapGet m x) (statsTopKeys m) := by
  have hs : (sortPairs m).Pairwise kvGE := List.sorted_insertionSort kvGE m
  have hperm : List.Perm (sortPairs m) m := List.perm_insertionSort kvGE m
  have hpw : (sortPairs m).Pairwise (fun a b => mapGet m b.k ≤ mapGet m a.k) := by
    refine hs.imp_of_mem ?_
    intro a b ha hb hr
    rw [mapGet_mem m h a (hperm.subset ha), mapGet_mem m h b (hperm.subset hb)]
    exact hr
  have hmap : (sortByValue m).Pairwise (fun x y => mapGet m y ≤ mapGet m x) := by
    unfold sortByValue
    exact List.pairwise_map.mpr hpw
  constructor
  · rw [statsTopKeys_eq_take]
    exact List.length_take_le 50 (sortByValue m)
  · rw [statsTopKeys_eq_take]
    exact hmap.sublist (List.take_sublist 50 (sortByValue m))

theorem claim5_witness :
    (statsEx.map kv.k).Nodup ∧
      ((statsTopKeys statsEx).length ≤ 50 ∧
        List.Sorted (fun x y => mapGet statsEx y ≤ mapGet statsEx x) (statsTopKeys statsEx)) :=
  ⟨by decide, claim5 statsEx (by decide)⟩

/-- C6 counterexample: the same counter mapping (the two pair sequences are
permutations of each other with distinct keys), handed to sortByValue in
two different iteration orders, yields two different output orders for the
tied counts; since Go randomizes map iteration order per run, two runs on
the same mapping need not agree. -/
theorem claim6_cex :
    List.Perm [kv.mk "a" 1, kv.mk "b" 1] [kv.mk "b" 1, kv.mk "a" 1] ∧
      (List.map kv.k [kv.mk "a" 1, kv.mk "b" 1]).Nodup ∧
      sortByValue [kv.mk "a" 1, kv.mk "b" 1] ≠ sortByValue [kv.mk "b" 1, kv.mk "a" 1] := by
  refine ⟨List.Perm.swap _ _ _, by decide, by decide⟩

/-- C6 amended: two runs of the top-N computation on the same counter
mapping need not order equal-count entries the same way: the map iteration
sequence is randomized per run, and sort.Slice promises only some
permutation of the pair slice ordered by count descending, with no
stability and hence no insertion-order tiebreak.  What the sorting
contract does determine on a given iteration sequence is the content and
the count column: any two permitted outcomes hold the same entries and
list the same counts in the same non-increasing order — the executable
model sortPairs being one such outcome — so outputs can differ only in
the key order inside a group of equal counts. -/
theorem claim6_amended (m out1 out2 : List kv)
    (h1 : sortSliceOutcome m out1) (h2 : sortSliceOutcome m out2) :
    List.Perm out1 out2 ∧ out1.map kv.v = out2.map kv.v ∧
      sortSliceOutcome m (sortPairs m) := by
  obtain ⟨p1, s1⟩ := h1
  obtain ⟨p2, s2⟩ := h2
  have p12 : List.Perm out1 out2 := p1.trans p2.symm
  refine ⟨p12, ?_, List.perm_insertionSort kvGE m, List.sorted_insertionSort kvGE m⟩
  have pv : List.Perm (out1.map kv.v) (out2.map kv.v) := p12.map kv.v
  have sv1 : List.Pairwise intGE (out1.map kv.v) := List.pairwise_map.mpr s1
  have sv2 : List.Pairwise intGE (out2.map kv.v) := List.pairwise_map.mpr s2
  exact List.eq_of_perm_of_sorted pv sv1 sv2

theorem claim6_witness :
    sortSliceOutcome [kv.mk "a" 1, kv.mk "b" 1] [kv.mk "a" 1, kv.mk "b" 1] ∧
      sortSliceOutcome [kv.mk "a" 1, kv.mk "b" 1] [kv.mk "b" 1, kv.mk "a" 1] ∧
      ([kv.mk "a" 1, kv.mk "b" 1] : List kv) ≠ [kv.mk "b" 1, kv.mk "a" 1] ∧
      (List.Perm [kv.mk "a" 1, kv.mk "b" 1] [kv.mk "b" 1, kv.mk "a" 1] ∧
        List.map kv.v [kv.mk "a" 1, kv.mk "b" 1] =
          List.map kv.v [kv.mk "b" 1, kv.mk "a" 1] ∧
        sortSliceOutcome [kv.mk "a" 1, kv.mk "b" 1]
          (sortPairs [kv.mk "a" 1, kv.mk "b" 1])) := by
  have hout1 : sortSliceOutcome [kv.mk "a" 1, kv.mk "b" 1] [kv.mk "a" 1, kv.mk "b" 1] := by
    exact ⟨by decide, by decide⟩
  have hout2 : sortSliceOutcome [kv.mk "a" 1, kv.mk "b" 1] [kv.mk "b" 1, kv.mk "a" 1] := by
    exact ⟨by decide, by decide⟩
  exact ⟨hout1, hout2, by decide, claim6_amended _ _ _ hout1 hout2⟩

/-! ## Theorems: resolver prober and key parser -/

/-- C7: a completed probe reply is classified ok exactly when it holds a
single answer record that is either an A record carrying 8.8.8.8 or a
record of any other type; zero answers, two or more answers, and a lone A
record with any other address are all classified as failures. -/
theorem claim7 (answer : List RR) :
    isOkE (checkDNSReply answer) = true ↔
      (answer = [RR.a testAnswerIP] ∨ ∃ s, answer = [RR.other s]) := by
  match answer with
  | [] => simp [checkDNSReply, isOkE]
  | [RR.a ip] =>
    by_cases h : ip = testAnswerIP <;> simp [checkDNSReply, isOkE, h]
  | [RR.other s] => simp [checkDNSReply, isOkE]
  | r1 :: r2 :: rest => simp [checkDNSReply, isOkE]

/-- C8: parsePrivateKey equals the specified ordered short-circuit sequence:
PKCS#1 RSA first, then PKCS#8 with its inner key classified as RSA or
ECDSA and any other inner type an error, then SEC1 EC, the first success
fixing the reported key type, and exhausting all three yielding the
failure whose message ends in the specified warning text. -/
theorem claim8 (env : CryptoEnv) (der : List Nat) :
    parsePrivateKey env der = parsePrivateKeySpec env der := by
  unfold parsePrivateKey parsePrivateKeySpec
  cases h1 : env.parsePKCS1 der with
  | some u => simp
  | none =>
    cases h2 : env.parsePKCS8 der with
    | some inner => cases inner <;> simp
    | none =>
      cases h3 : env.parseEC der with
      | some u => simp [h3]
      | none => simp [h3]

/-! ## Theorems: certificate validator -/

theorem append_ne_empty (a b : String) (h : a.data ≠ []) : a ++ b ≠ "" := by
  intro hc
  apply h
  have hd : (a ++ b).data = a.data ++ b.data := String.data_append a b
  rw [hc] at hd
  exact (List.append_eq_nil.mp hd.symm).1

theorem parseAllCerts_error_of_mem (env : CryptoEnv) (bs : List PemBlock) (b : PemBlock)
    (hb : b ∈ bs) (hfail : isOkE (env.parseCertificate b.bytes) = false) :
    ∃ e, parseAllCerts env bs = .error e := by
  induction bs with
  | nil => cases hb
  | cons a t ih =>
    rcases List.mem_cons.mp hb with rfl | ht
    · cases hp : env.parseCertificate b.bytes with
      | error e => exact ⟨e, by simp [parseAllCerts, hp]⟩
      | ok c => rw [hp] at hfail; simp [isOkE] at hfail
    · cases hp : env.parseCertificate a.bytes with
      | error e => exact ⟨e, by simp [parseAllCerts, hp]⟩
      | ok c =>
        obtain ⟨e, he⟩ := ih ht
        exact ⟨e, by simp [parseAllCerts, hp, he]⟩

theorem chainVerify_fields (env : CryptoEnv) (d1 : tlsConfig) (c : Cert) (cs : List Cert) :
    (chainVerify env d1 c cs).certificateChain = d1.certificateChain ∧
    (chainVerify env d1 c cs).privateKey = d1.privateKey ∧
    (chainVerify env d1 c cs).validCert = d1.validCert ∧
    (chainVerify env d1 c cs).usable = d1.usable ∧
    (chainVerify env d1 c cs).validKey = d1.validKey ∧
    (chainVerify env d1 c cs).keyType = d1.keyType := by
  unfold chainVerify
  split <;> exact ⟨rfl, rfl, rfl, rfl, rfl, rfl⟩

theorem chainStep_ok (env : CryptoEnv) (d d' : tlsConfig) (h : chainStep env d = .ok d') :
    d'.certificateChain = d.certificateChain ∧ d'.privateKey = d.privateKey ∧
    d'.usable = d.usable ∧ d'.validKey = d.validKey ∧ d'.keyType = d.keyType ∧
    (d.certificateChain ≠ "" → d'.validCert = true) := by
  unfold chainStep at h
  split at h
  next hc =>
    injection h with h
    subst h
    exact ⟨rfl, rfl, rfl, rfl, rfl, fun hne => absurd hc hne⟩
  next hc =>
    split at h
    next => exact Except.noConfusion h
    next => exact Except.noConfusion h
    next c cs hp =>
      injection h with h
      subst h
      obtain ⟨e1, e2, e3, e4, e5, e6⟩ := chainVerify_fields env { d with validCert := true } c cs
      exact ⟨e1, e2, e4, e5, e6, fun _ => e3⟩

theorem chainStep_err_usable (env : CryptoEnv) (d d' : tlsConfig)
    (h : chainStep env d = .error d') : d'.usable = d.usable := by
  unfold chainStep at h
  split at h
  next => exact Except.noConfusion h
  next =>
    split at h
    next => injection h with h; subst h; rfl
    next => injection h with h; subst h; rfl
    next => exact Except.noConfusion h

theorem chainStep_parse_ok (env : CryptoEnv) (d : tlsConfig) (c : Cert) (cs : List Cert)
    (h1 : d.certificateChain ≠ "")
    (h2 : parseAllCerts env (certBlocks env d.certificateChain) = .ok (c :: cs)) :
    chainStep env d = .ok (setLeafMeta (chainVerify env { d with validCert := true } c cs) c) := by
  unfold chainStep
  rw [if_neg h1, h2]

theorem chainStep_parse_err (env : CryptoEnv) (d : tlsConfig) (e : String)
    (h1 : d.certificateChain ≠ "")
    (he : parseAllCerts env (certBlocks env d.certificateChain) = .error e) :
    chainStep env d =
      .error { d with warningValidation := "Failed to parse certificate: " ++ e } := by
  unfold chainStep
  rw [if_neg h1, he]

theorem chainStep_parse_empty (env : CryptoEnv) (d : tlsConfig)
    (h1 : d.certificateChain ≠ "")
    (he : parseAllCerts env (certBlocks env d.certificateChain) = .ok []) :
    chainStep env d =
      .error { d with warningValidation := "You have specified an empty certificate" } := by
  unfold chainStep
  rw [if_neg h1, he]

theorem keyStep_ok (env : CryptoEnv) (d d' : tlsConfig) (h : keyStep env d = .ok d') :
    d'.certificateChain = d.certificateChain ∧ d'.privateKey = d.privateKey ∧
    d'.usable = d.usable ∧ d'.validCert = d.validCert ∧
    d'.subject = d.subject ∧ d'.issuer = d.issuer ∧ d'.notBefore = d.notBefore ∧
    d'.notAfter = d.notAfter ∧ d'.dnsNames = d.dnsNames ∧
    (d.privateKey ≠ "" → d'.validKey = true) := by
  unfold keyStep at h
  split at h
  next hk =>
    injection h with h
    subst h
    exact ⟨rfl, rfl, rfl, rfl, rfl, rfl, rfl, rfl, rfl, fun hne => absurd hk hne⟩
  next hk =>
    split at h
    next => exact Except.noConfusion h
    next key hkey =>
      split at h
      next => exact Except.noConfusion h
      next kt hkt =>
        injection h with h
        subst h
        exact ⟨rfl, rfl, rfl, rfl, rfl, rfl, rfl, rfl, rfl, fun _ => rfl⟩

theorem keyStep_err (env : CryptoEnv) (d d' : tlsConfig) (h : keyStep env d = .error d') :
    d'.usable = d.usable ∧ d'.validCert = d.validCert ∧
    d'.subject = d.subject ∧ d'.issuer = d.issuer ∧ d'.notBefore = d.notBefore ∧
    d'.notAfter = d.notAfter ∧ d'.dnsNames = d.dnsNames := by
  unfold keyStep at h
  split at h
  next => exact Except.noConfusion h
  next =>
    split at h
    next => injection h with h; subst h; exact ⟨rfl, rfl, rfl, rfl, rfl, rfl, rfl⟩
    next key hkey =>
      split at h
      next => injection h with h; subst h; exact ⟨rfl, rfl, rfl, rfl, rfl, rfl, rfl⟩
      next => exact Except.noConfusion h

theorem pairStep_fields (env : CryptoEnv) (d : tlsConfig) :
    (pairStep env d).certificateChain = d.certificateChain ∧
    (pairStep env d).privateKey = d.privateKey ∧
    (pairStep env d).validCert = d.validCert ∧
    (pairStep env d).validKey = d.validKey ∧
    (pairStep env d).subject = d.subject ∧
    (pairStep env d).issuer = d.issuer ∧
    (pairStep env d).notBefore = d.notBefore ∧
    (pairStep env d).notAfter = d.notAfter ∧
    (pairStep env d).dnsNames = d.dnsNames := by
  unfold pairStep
  split
  next => exact ⟨rfl, rfl, rfl, rfl, rfl, rfl, rfl, rfl, rfl⟩
  next =>
    split
    next => exact ⟨rfl, rfl, rfl, rfl, rfl, rfl, rfl, rfl, rfl⟩
    next =>
      split <;> exact ⟨rfl, rfl, rfl, rfl, rfl, rfl, rfl, rfl, rfl⟩

theorem pairStep_usable (env : CryptoEnv) (d : tlsConfig)
    (h : (pairStep env d).usable = true) :
    d.usable = true ∨
      (d.privateKey ≠ "" ∧ d.certificateChain ≠ "" ∧
        env.x509KeyPair d.certificateChain d.privateKey = .ok ()) := by
  unfold pairStep at h
  split at h
  next => exact Or.inl h
  next hk =>
    split at h
    next => exact Or.inl h
    next hc =>
      split at h
      next => exact Or.inl h
      next u hpair => exact Or.inr ⟨hk, hc, hpair⟩

theorem validateTail_fields (env : CryptoEnv) (d : tlsConfig) :
    (validateTail env d).validCert = d.validCert ∧
    (validateTail env d).subject = d.subject ∧
    (validateTail env d).issuer = d.issuer ∧
    (validateTail env d).notBefore = d.notBefore ∧
    (validateTail env d).notAfter = d.notAfter ∧
    (validateTail env d).dnsNames = d.dnsNames := by
  unfold validateTail
  cases hk : keyStep env d with
  | error d2 =>
    obtain ⟨_, e2, e3, e4, e5, e6, e7⟩ := keyStep_err env d d2 hk
    exact ⟨e2, e3, e4, e5, e6, e7⟩
  | ok d2 =>
    obtain ⟨_, _, _, e2, e3, e4, e5, e6, e7, _⟩ := keyStep_ok env d d2 hk
    obtain ⟨_, _, p3, _, p5, p6, p7, p8, p9⟩ := pairStep_fields env d2
    exact ⟨p3.trans e2, p5.trans e3, p6.trans e4, p7.trans e5, p8.trans e6, p9.trans e7⟩

/-- C1 counterexample: a chain text holding a CERTIFICATE block that parses
followed by another CERTIFICATE block that does not: the claim asserts
ValidCert = true with populated metadata, but validateCertificates aborts
on the failing block, leaving ValidCert false and the subject empty. -/
theorem claim1_cex :
    ((certBlocks tlsEnvEx cfgBadTail.certificateChain).any
        (fun b => isOkE (tlsEnvEx.parseCertificate b.bytes)) = true) ∧
      (validateCertificates tlsEnvEx cfgBadTail).validCert = false ∧
      (validateCertificates tlsEnvEx cfgBadTail).subject = "" := by decide

/-- C1 amended: for every chain text that is present, decodes to at least
one CERTIFICATE block, and all of whose CERTIFICATE blocks parse,
validateCertificates reports ValidCert = true with Subject, Issuer,
NotBefore, NotAfter and DNSNames populated from the first parsed
certificate, regardless of whether chain verification against the trust
store succeeds; a parse failure on any block instead aborts the whole
validation with a warning. -/
theorem claim1_amended (env : CryptoEnv) (data0 : tlsConfig) (c : Cert) (cs : List Cert)
    (h1 : data0.certificateChain ≠ "")
    (h2 : parseAllCerts env (certBlocks env data0.certificateChain) = .ok (c :: cs)) :
    (validateCertificates env data0).validCert = true ∧
    (validateCertificates env data0).subject = c.subjectStr ∧
    (validateCertificates env data0).issuer = c.issuerStr ∧
    (validateCertificates env data0).notBefore = c.notBefore ∧
    (validateCertificates env data0).notAfter = c.notAfter ∧
    (validateCertificates env data0).dnsNames = c.dnsNames := by
  have h1c : (clearStatus data0).certificateChain ≠ "" := h1
  have h2c : parseAllCerts env (certBlocks env (clearStatus data0).certificateChain) =
      .ok (c :: cs) := h2
  have hc := chainStep_parse_ok env (clearStatus data0) c cs h1c h2c
  unfold validateCertificates
  rw [hc]
  obtain ⟨t1, t2, t3, t4, t5, t6⟩ :=
    validateTail_fields env
      (setLeafMeta (chainVerify env { clearStatus data0 with validCert := true } c cs) c)
  obtain ⟨_, _, v3, _⟩ :=
    chainVerify_fields env { clearStatus data0 with validCert := true } c cs
  exact ⟨t1.trans v3, t2, t3, t4, t5, t6⟩

theorem claim1_witness :
    (validateCertificates tlsEnvEx cfgHappy).validCert = true ∧
    (validateCertificates tlsEnvEx cfgHappy).subject = certLeaf.subjectStr ∧
    (validateCertificates tlsEnvEx cfgHappy).issuer = certLeaf.issuerStr ∧
    (validateCertificates tlsEnvEx cfgHappy).notBefore = certLeaf.notBefore ∧
    (validateCertificates tlsEnvEx cfgHappy).notAfter = certLeaf.notAfter ∧
    (validateCertificates tlsEnvEx cfgHappy).dnsNames = certLeaf.dnsNames :=
  claim1_amended tlsEnvEx cfgHappy certLeaf [] (by decide) rfl

/-- C2: whenever the bundle returned by validateCertificates has
usable = true, it also has ValidCert = true and ValidKey = true, and
tls.X509KeyPair accepted the chain text and key text together. -/
theorem claim2 (env : CryptoEnv) (data0 : tlsConfig)
    (h : (validateCertificates env data0).usable = true) :
    (validateCertificates env data0).validCert = true ∧
    (validateCertificates env data0).validKey = true ∧
    env.x509KeyPair data0.certificateChain data0.privateKey = .ok () := by
  cases hc : chainStep env (clearStatus data0) with
  | error d1 =>
    have hval : validateCertificates env data0 = d1 := by
      unfold validateCertificates
      rw [hc]
    rw [hval] at h
    have hu := chainStep_err_usable env (clearStatus data0) d1 hc
    rw [hu] at h
    exact absurd h (by simp [clearStatus])
  | ok d1 =>
    have hval : validateCertificates env data0 = validateTail env d1 := by
      unfold validateCertificates
      rw [hc]
    rw [hval] at h ⊢
    obtain ⟨c1, p1, u1, k1, kt1, vc1⟩ := chainStep_ok env (clearStatus data0) d1 hc
    cases hk : keyStep env d1 with
    | error d2 =>
      have hval2 : validateTail env d1 = d2 := by
        unfold validateTail
        rw [hk]
      rw [hval2] at h
      obtain ⟨hu2, _⟩ := keyStep_err env d1 d2 hk
      rw [hu2, u1] at h
      exact absurd h (by simp [clearStatus])
    | ok d2 =>
      have hval2 : validateTail env d1 = pairStep env d2 := by
        unfold validateTail
        rw [hk]
      rw [hval2] at h ⊢
      obtain ⟨c2, p2, u2, vcert2, _, _, _, _, _, vk2⟩ := keyStep_ok env d1 d2 hk
      rcases pairStep_usable env d2 h with hu | ⟨hkne, hcne, hpair⟩
      · rw [u2, u1] at hu
        exact absurd hu (by simp [clearStatus])
      · have hch0 : d2.certificateChain = data0.certificateChain := by
          rw [c2, c1]
          simp [clearStatus]
        have hkey0 : d2.privateKey = data0.privateKey := by
          rw [p2, p1]
          simp [clearStatus]
        obtain ⟨_, _, pv3, pv4, _⟩ := pairStep_fields env d2
        refine ⟨?_, ?_, ?_⟩
        · rw [pv3, vcert2]
          exact vc1 (fun h0 => hcne (hch0.trans h0))
        · rw [pv4]
          exact vk2 (fun h0 => hkne ((p2.trans h0)))
        · rw [← hch0, ← hkey0]
          exact hpair

theorem claim2_witness :
    (validateCertificates tlsEnvEx cfgHappy).usable = true ∧
      ((validateCertificates tlsEnvEx cfgHappy).validCert = true ∧
        (validateCertificates tlsEnvEx cfgHappy).validKey = true ∧
        tlsEnvEx.x509KeyPair cfgHappy.certificateChain cfgHappy.privateKey = .ok ()) :=
  ⟨by decide, claim2 tlsEnvEx cfgHappy (by decide)⟩

/-- C9: when the chain text is present and either some CERTIFICATE block
fails to parse or no CERTIFICATE block decodes at all,
validateCertificates returns the cleared bundle with only the warning
populated: the key branch never runs, so ValidKey, KeyType, usable and
ValidCert keep their zero values even when a valid private key was
supplied alongside. -/
theorem claim9 (env : CryptoEnv) (data0 : tlsConfig)
    (h1 : data0.certificateChain ≠ "")
    (h2 : (∃ b ∈ certBlocks env data0.certificateChain,
            isOkE (env.parseCertificate b.bytes) = false) ∨
          certBlocks env data0.certificateChain = []) :
    (validateCertificates env data0).validKey = false ∧
    (validateCertificates env data0).keyType = "" ∧
    (validateCertificates env data0).usable = false ∧
    (validateCertificates env data0).validCert = false ∧
    (validateCertificates env data0).warningValidation ≠ "" := by
  have h1c : (clearStatus data0).certificateChain ≠ "" := h1
  rcases h2 with ⟨b, hb, hfail⟩ | hempty
  · obtain ⟨e, he⟩ :=
      parseAllCerts_error_of_mem env (certBlocks env data0.certificateChain) b hb hfail
    have hec : parseAllCerts env (certBlocks env (clearStatus data0).certificateChain) =
        .error e := he
    have hc := chainStep_parse_err env (clearStatus data0) e h1c hec
    unfold validateCertificates
    rw [hc]
    exact ⟨rfl, rfl, rfl, rfl,
      append_ne_empty "Failed to parse certificate: " e (by decide)⟩
  · have hec : parseAllCerts env (certBlocks env (clearStatus data0).certificateChain) =
        .ok [] := by
      have hcb : certBlocks env (clearStatus data0).certificateChain = [] := hempty
      rw [hcb]
      rfl
    have hc := chainStep_parse_empty env (clearStatus data0) h1c hec
    unfold validateCertificates
    rw [hc]
    exact ⟨rfl, rfl, rfl, rfl,
      show ("You have specified an empty certificate" : String) ≠ "" by decide⟩

theorem claim9_witness :
    cfgBadTail.certificateChain ≠ "" ∧
      isOkE (parsePrivateKey tlsEnvEx blockKey.bytes) = true ∧
      ((validateCertificates tlsEnvEx cfgBadTail).validKey = false ∧
        (validateCertificates tlsEnvEx cfgBadTail).keyType = "" ∧
        (validateCertificates tlsEnvEx cfgBadTail).usable = false ∧
        (validateCertificates tlsEnvEx cfgBadTail).validCert = false ∧
        (validateCertificates tlsEnvEx cfgBadTail).warningValidation ≠ "") :=
  ⟨by decide, by decide,
    claim9 tlsEnvEx cfgBadTail (by decide)
      (Or.inl ⟨blockBad, by decide, by decide⟩)⟩

/-! ## Theorems: filter list manager -/

theorem removeLoop_ok (env : FilterEnv) (url : String) (orig : List filter)
    (hw : env.writeAllConfigs = .ok ()) (hr : env.reconfigureDNS = .ok ()) :
    ∀ (l acc : List filter), (∀ g ∈ l, g.URL ≠ url) →
      removeLoop env url orig acc l = (HResp.ok "OK", acc ++ l) := by
  intro l
  induction l with
  | nil =>
    intro acc _
    simp [removeLoop, hw, hr]
  | cons g rest ih =>
    intro acc hno
    have hg : g.URL ≠ url := hno g (List.mem_cons_self g rest)
    unfold removeLoop
    rw [if_pos hg, ih (acc ++ [g]) (fun x hx => hno x (List.mem_cons_of_mem g hx))]
    simp

/-- C3 counterexample: with a well-formed URL that matches no held filter,
handleFilteringRemoveURL answers OK instead of a validation error (the
collection is indeed left unchanged). -/
theorem claim3_cex :
    (([fOther] : List filter).all (fun g => g.URL ≠ fOld.URL)) = true ∧
      fEnvOk.isRequestURL fOld.URL = true ∧
      handleFilteringRemoveURL fEnvOk [("url", fOld.URL)] [fOther] =
        (HResp.ok "OK", [fOther]) := by decide

/-- C3 amended: a Remove whose URL is well-formed but matches no held
filter is accepted, not rejected: when config persistence and DNS
reconfiguration succeed it answers OK, deletes no file, and leaves the
filter collection unchanged; there is no unknown-URL validation error in
the remove handler. -/
theorem claim3_amended (env : FilterEnv) (params : List (String × String)) (url : String)
    (l : List filter)
    (hu : params.lookup "url" = some url)
    (hv : env.isRequestURL url = true)
    (hno : ∀ g ∈ l, g.URL ≠ url)
    (hw : env.writeAllConfigs = .ok ())
    (hr : env.reconfigureDNS = .ok ()) :
    handleFilteringRemoveURL env params l = (HResp.ok "OK", l) := by
  unfold handleFilteringRemoveURL
  simp only [hu]
  rw [if_neg (not_not_intro hv)]
  exact removeLoop_ok env url l hw hr l [] hno

theorem claim3_witness :
    handleFilteringRemoveURL fEnvOk [("url", "https://unknown.example/u.txt")] [fOther] =
      (HResp.ok "OK", [fOther]) :=
  claim3_amended fEnvOk [("url", "https://unknown.example/u.txt")]
    "https://unknown.example/u.txt" [fOther] rfl rfl (by decide) rfl rfl

theorem addTail_err400 (env : FilterEnv) (ok : Bool) (f2 : filter) (l : List filter)
    (msg : String) :
    (addTail env ok f2 l).1 = HResp.err 400 msg → (addTail env ok f2 l).2 = l := by
  unfold addTail
  split
  · intro _
    rfl
  · split
    · intro _
      rfl
    · split
      · intro _
        rfl
      · split
        · intro h
          simp at h
        · split
          · intro h
            simp at h
          · intro h
            simp at h

theorem addTail_ok (env : FilterEnv) (ok : Bool) (f2 : filter) (l : List filter)
    (msg : String) :
    (addTail env ok f2 l).1 = HResp.ok msg → (addTail env ok f2 l).2 = l ++ [f2] := by
  unfold addTail
  split
  · intro h
    simp at h
  · split
    · intro h
      simp at h
    · split
      · intro h
        simp at h
      · split
        · intro _
          rfl
        · split
          · intro _
            rfl
          · intro _
            rfl

/-- C4 counterexample: with every step succeeding except the configuration
write (which happens after the append), the Add request fails with an
HTTP 500 error, yet the filter collection has been mutated; a failing Add
can leave the collection changed. -/
theorem claim4_cex :
    respIsOk (handleFilteringAddURL fEnvNoWrite fNew []).1 = false ∧
      (handleFilteringAddURL fEnvNoWrite fNew []).2 ≠ [] := by decide

/-- C4 amended: adding a filter whose URL (once it passes the emptiness and
well-formedness checks) equals the URL of a stored filter fails with the
duplicate error and leaves the collection unchanged; every Add that fails
before the append — URL validation, duplicate check, fetch, rule count,
validity flag, content save, all reported as HTTP 400 — leaves the
collection untouched, while a config-write or DNS-reload failure (HTTP
500) occurs after the append, with the new filter already stored. -/
theorem claim4_amended (env : FilterEnv) (f : filter) (l : List filter) :
    (f.URL.length ≠ 0 → env.isRequestURL f.URL = true →
        l.any (fun g => g.URL = f.URL) = true →
        handleFilteringAddURL env f l =
          (HResp.err 400 ("Filter URL already added -- " ++ f.URL), l)) ∧
      (∀ msg, (handleFilteringAddURL env f l).1 = HResp.err 400 msg →
        (handleFilteringAddURL env f l).2 = l) := by
  constructor
  · intro h1 h2 h3
    unfold handleFilteringAddURL
    rw [if_neg h1, if_neg (not_not_intro h2), if_pos h3]
  · intro msg h
    by_cases hA : f.URL.length = 0
    · have hval : handleFilteringAddURL env f l =
          (HResp.err 400 "URL parameter was not specified", l) := by
        unfold handleFilteringAddURL
        rw [if_pos hA]
      rw [hval]
    · by_cases hB : env.isRequestURL f.URL = true
      · by_cases hC : l.any (fun g => g.URL = f.URL) = true
        · have hval : handleFilteringAddURL env f l =
              (HResp.err 400 ("Filter URL already added -- " ++ f.URL), l) := by
            unfold handleFilteringAddURL
            rw [if_neg hA, if_neg (not_not_intro hB), if_pos hC]
          rw [hval]
        · cases hU : env.update { f with ID := env.nextID, Enabled := true } with
          | error e =>
            have hval : handleFilteringAddURL env f l =
                (HResp.err 400 ("Couldn't fetch filter from url " ++ f.URL ++ ": " ++ e), l) := by
              unfold handleFilteringAddURL
              rw [if_neg hA, if_neg (not_not_intro hB), if_neg hC, hU]
            rw [hval]
          | ok pr =>
            obtain ⟨ok0, rc⟩ := pr
            have hval : handleFilteringAddURL env f l =
                addTail env ok0 { f with ID := env.nextID, Enabled := true, RulesCount := rc } l := by
              unfold handleFilteringAddURL
              rw [if_neg hA, if_neg (not_not_intro hB), if_neg hC, hU]
            rw [hval] at h ⊢
            exact addTail_err400 env ok0 _ l msg h
      · have hval : handleFilteringAddURL env f l =
            (HResp.err 400 "URL parameter is not valid request URL", l) := by
          unfold handleFilteringAddURL
          rw [if_neg hA, if_pos (by simpa using hB)]
        rw [hval]

theorem claim4_witness :
    handleFilteringAddURL fEnvOk fNew [fOld] =
      (HResp.err 400 ("Filter URL already added -- " ++ fNew.URL), [fOld]) ∧
      (handleFilteringAddURL fEnvNoFetch fNew []).2 = [] :=
  ⟨(claim4_amended fEnvOk fNew [fOld]).1 (by decide) (by decide) (by decide),
    (claim4_amended fEnvNoFetch fNew []).2
      "Couldn't fetch filter from url https://example.test/list.txt: timeout" (by decide)⟩

/-- C10: after a successful Add, every filter stored under the added URL
has Enabled = true, without any separate Enable call (the handler sets the
flag before fetching and appends that filter). -/
theorem claim10 (env : FilterEnv) (f : filter) (l : List filter) (msg : String)
    (h : (handleFilteringAddURL env f l).1 = HResp.ok msg) :
    ∀ g ∈ (handleFilteringAddURL env f l).2, g.URL = f.URL → g.Enabled = true := by
  by_cases hA : f.URL.length = 0
  · have hval : handleFilteringAddURL env f l =
        (HResp.err 400 "URL parameter was not specified", l) := by
      unfold handleFilteringAddURL
      rw [if_pos hA]
    rw [hval] at h
    simp at h
  · by_cases hB : env.isRequestURL f.URL = true
    · by_cases hC : l.any (fun g => g.URL = f.URL) = true
      · have hval : handleFilteringAddURL env f l =
            (HResp.err 400 ("Filter URL already added -- " ++ f.URL), l) := by
          unfold handleFilteringAddURL
          rw [if_neg hA, if_neg (not_not_intro hB), if_pos hC]
        rw [hval] at h
        simp at h
      · cases hU : env.update { f with ID := env.nextID, Enabled := true } with
        | error e =>
          have hval : handleFilteringAddURL env f l =
              (HResp.err 400 ("Couldn't fetch filter from url " ++ f.URL ++ ": " ++ e), l) := by
            unfold handleFilteringAddURL
            rw [if_neg hA, if_neg (not_not_intro hB), if_neg hC, hU]
          rw [hval] at h
          simp at h
        | ok pr =>
          obtain ⟨ok0, rc⟩ := pr
          have hval : handleFilteringAddURL env f l =
              addTail env ok0 { f with ID := env.nextID, Enabled := true, RulesCount := rc } l := by
            unfold handleFilteringAddURL
            rw [if_neg hA, if_neg (not_not_intro hB), if_neg hC, hU]
          rw [hval] at h ⊢
          rw [addTail_ok env ok0 _ l msg h]
          intro g hg hgu
          rcases List.mem_append.mp hg with hgl | hgr
          · rw [List.any_eq_true] at hC
            push_neg at hC
            have := hC g hgl
            simp at this
            exact absurd hgu this
          · have hgf : g = { f with ID := env.nextID, Enabled := true, RulesCount := rc } :=
              List.mem_singleton.mp hgr
            rw [hgf]
    · have hval : handleFilteringAddURL env f l =
          (HResp.err 400 "URL parameter is not valid request URL", l) := by
        unfold handleFilteringAddURL
        rw [if_neg hA, if_pos (by simpa using hB)]
      rw [hval] at h
      simp at h

theorem claim10_witness :
    (handleFilteringAddURL fEnvOk fNew []).1 = HResp.ok "OK 120 rules" ∧
      (∀ g ∈ (handleFilteringAddURL fEnvOk fNew []).2, g.URL = fNew.URL → g.Enabled = true) :=
  ⟨by decide, claim10 fEnvOk fNew [] "OK 120 rules" (by decide)⟩

end AdGuard
